import Mathlib

/-!
Shallow embedding of the invoice manager (src/invoice_manager/app.py).

Monetary values are Python `Decimal`s holding finite decimal fractions; all
operations performed by the program on them (addition, multiplication,
division by 100, `quantize` to two fraction digits) are exact or explicitly
rounded, so they are modelled faithfully by rationals `ℚ`.  Dates are
modelled as integer day numbers (`ℤ`): `date + timedelta(days=n)` becomes
`+ n`, and `date` comparison becomes integer comparison.
-/

namespace InvoiceManager

/-- Rounding of `x` to the nearest integer with ties going to the even
integer: the behaviour of Python `Decimal.quantize` under the default
context rounding `ROUND_HALF_EVEN`. -/
def roundHalfEvenInt (x : ℚ) : ℤ :=
  let f : ℤ := ⌊x⌋
  let r : ℚ := x - (f : ℚ)
  if r < 1 / 2 then f
  else if 1 / 2 < r then f + 1
  else if f % 2 = 0 then f else f + 1

/-- `Decimal.quantize(Decimal("0.01"))` with the default context:
round to two fraction digits, ties to even. -/
def quantize2 (q : ℚ) : ℚ :=
  (roundHalfEvenInt (q * 100) : ℚ) / 100

/-- Modelled from the spec: `round2`, "explicit rounding to 2 fraction
digits using round-half-up" (ties away from zero).  Used only to state
spec-side claims; the source itself never rounds this way. -/
def round2Spec (q : ℚ) : ℚ :=
  if 0 ≤ q then (⌊q * 100 + 1 / 2⌋ : ℚ) / 100
  else -((⌊-(q * 100) + 1 / 2⌋ : ℚ) / 100)

/-- The invoice lifecycle status enum (`invoice_status` in app.py). -/
inductive Status where
  | draft
  | sent
  | paid
  | overdue
  | cancelled
deriving DecidableEq, Repr

/-- An invoice line item (model `InvoiceItem`, app.py lines 273-296).
Only the fields the recalculation logic reads are monetary; the
descriptive fields are carried to state frame properties. -/
structure InvoiceItem where
  product_id : Option ℕ
  description : String
  quantity : ℚ
  unit_price : ℚ
  line_total : ℚ
deriving DecidableEq, Repr

/-- A payment row (model `Payment`, app.py lines 299-321). -/
structure Payment where
  amount : ℚ
  payment_date : ℤ
  method : Option String
  external_reference : Option String
deriving DecidableEq, Repr

/-- An invoice (model `Invoice`, app.py lines 181-246) with its owned
items and payments. -/
structure Invoice where
  invoice_number : String
  customer_id : Option ℕ
  issue_date : ℤ
  due_date : Option ℤ
  status : Status
  notes : Option String
  subtotal_amount : ℚ
  tax_rate : Option ℚ
  tax_amount : ℚ
  total_amount : ℚ
  balance_due : ℚ
  items : List InvoiceItem
  payments : List Payment
deriving DecidableEq, Repr

/-- A customer (model `Customer`, app.py lines 131-158); only the fields
read by tax resolution. -/
structure Customer where
  name : String
  tax_rate : Option ℚ
  use_default_tax : Bool
deriving DecidableEq, Repr

/-- The settings singleton (model `Settings`, app.py lines 72-119); only
the fields read by tax resolution and the due-date policy.
`payment_terms_days` is a Python `int` column and may be negative. -/
structure Settings where
  default_tax_rate : ℚ
  payment_terms_days : ℤ
  use_global_payment_terms : Bool
deriving DecidableEq, Repr

/-- Python truthiness of `self.due_date and date.today() > self.due_date`
(app.py line 239): a `date` object is always truthy, so this is
"due date present and strictly before today". -/
def duePast (today : ℤ) (due : Option ℤ) : Bool :=
  match due with
  | some d => decide (d < today)
  | none => false

/-- The status-transition chain of `Invoice.recalc_totals`
(app.py lines 237-246), as a function of the freshly computed balance and
total, the due date, today's date, and the current status. -/
def next_status (balance_due total : ℚ) (due : Option ℤ) (today : ℤ)
    (st : Status) : Status :=
  if balance_due ≤ 0 ∧ 0 < total then Status.paid
  else if duePast today due ∧ st ≠ Status.paid ∧ st ≠ Status.cancelled then
    Status.overdue
  else if st ≠ Status.cancelled ∧ st ≠ Status.paid then Status.sent
  else st

/-- `Invoice.recalc_totals` (app.py lines 223-246): recompute the five
derived monetary fields and the status, in source order.  `sum` over
`Decimal`s is exact; only the tax amount is quantized (line 228). -/
def recalc_totals (today : ℤ) (inv : Invoice) : Invoice :=
  let subtotal := (inv.items.map InvoiceItem.line_total).sum
  let rate := inv.tax_rate.getD 0
  let tax_amount := quantize2 (subtotal * rate / 100)
  let total := subtotal + tax_amount
  let paid := (inv.payments.map Payment.amount).sum
  let balance_due := total - paid
  { inv with
    subtotal_amount := subtotal
    tax_amount := tax_amount
    total_amount := total
    balance_due := balance_due
    status := next_status balance_due total inv.due_date today inv.status }

/-- `determine_tax_rate_for_customer` (app.py lines 373-379). -/
def determine_tax_rate_for_customer (customer : Option Customer)
    (settings : Settings) : ℚ :=
  match customer with
  | none => settings.default_tax_rate
  | some c =>
    if c.use_default_tax then settings.default_tax_rate
    else
      match c.tax_rate with
      | none => settings.default_tax_rate
      | some r => r

/-- `apply_global_payment_terms` (app.py lines 382-385).  Python
truthiness of `not settings.payment_terms_days` on an `int` is
`payment_terms_days = 0`. -/
def apply_global_payment_terms (issue_date : ℤ) (settings : Settings) :
    Option ℤ :=
  if ¬settings.use_global_payment_terms ∨ settings.payment_terms_days = 0 then
    none
  else some (issue_date + settings.payment_terms_days)

/-- The due-date resolution of `_handle_invoice_form`
(app.py lines 902-919): an explicit due date is used unchanged; otherwise
global payment terms apply when enabled and the day count is truthy
(nonzero); otherwise the due date is null. -/
def resolveDueDate (issue_date : ℤ) (explicitDueDate : Option ℤ)
    (settings : Settings) : Option ℤ :=
  match explicitDueDate with
  | some d => some d
  | none =>
    if settings.use_global_payment_terms ∧ settings.payment_terms_days ≠ 0 then
      some (issue_date + settings.payment_terms_days)
    else none

/-- Item construction in `_handle_invoice_form` (app.py lines 955-979)
and in the invoice APIs (lines 1460-1481): the stored line total is the
raw product `quantity * unit_price`, with no rounding. -/
def mkInvoiceItem (desc : String) (qty price : ℚ) (pid : Option ℕ) :
    InvoiceItem :=
  { product_id := pid
    description := desc
    quantity := qty
    unit_price := price
    line_total := qty * price }

/-- A concrete invoice fixture: the non-derived header fields are fixed,
the status, due date, tax rate, items and payments vary per test. -/
def baseInv (st : Status) (due : Option ℤ) (rate : Option ℚ)
    (itemList : List InvoiceItem) (payList : List Payment) : Invoice :=
  { invoice_number := "INV-20260101-0001"
    customer_id := some 1
    issue_date := 0
    due_date := due
    status := st
    notes := none
    subtotal_amount := 0
    tax_rate := rate
    tax_amount := 0
    total_amount := 0
    balance_due := 0
    items := itemList
    payments := payList }

/-- A cancelled invoice for 100.00 that has been fully paid. -/
def cancelledOverpaidInv : Invoice :=
  baseInv Status.cancelled none none [mkInvoiceItem "service" 1 100 none]
    [⟨100, 0, none, none⟩]

/-- A cancelled invoice for 100.00 with no payments. -/
def cancelledUnpaidInv : Invoice :=
  baseInv Status.cancelled none none [mkInvoiceItem "service" 1 100 none] []

/-- A draft invoice with no items, no payments and no due date. -/
def draftEmptyInv : Invoice := baseInv Status.draft none none [] []

/-- An invoice with one item of quantity 0.5 at unit price 0.05: the raw
line total 0.025 is not a 2-decimal value. -/
def halfCentInv : Invoice :=
  baseInv Status.sent none none [mkInvoiceItem "fractional" (1 / 2) (1 / 20) none] []

/-- An invoice with subtotal 1.25 and tax rate 10 percent: the exact tax
1.25 * 10 / 100 = 0.125 is a rounding tie. -/
def tieInv : Invoice :=
  baseInv Status.sent none (some 10) [mkInvoiceItem "widget" 1 (125 / 100) none] []

/-- An invoice for 100.00 carrying a 150.00 payment (overpaid). -/
def overpaidInv : Invoice :=
  baseInv Status.sent none none [mkInvoiceItem "service" 1 100 none]
    [⟨150, 0, none, none⟩]

/-- An invoice for 100.00 carrying a 100.00 payment (fully paid). -/
def fullyPaidInv : Invoice :=
  baseInv Status.sent none none [mkInvoiceItem "service" 1 100 none]
    [⟨100, 0, none, none⟩]

/-- An invoice with one item of quantity 3 at unit price 19.99. -/
def threeItemInv : Invoice :=
  baseInv Status.sent none none [mkInvoiceItem "consulting" 3 (1999 / 100) none] []

/-- Settings with global payment terms enabled and a negative day count
(the settings form accepts any integer; app.py lines 522-530). -/
def negativeTermsSettings : Settings :=
  { default_tax_rate := 0, payment_terms_days := -5,
    use_global_payment_terms := true }

/-- Settings with global payment terms of 30 days. -/
def thirtyDaySettings : Settings :=
  { default_tax_rate := 0, payment_terms_days := 30,
    use_global_payment_terms := true }

/-- Settings with global payment terms enabled but zero days. -/
def zeroDaySettings : Settings :=
  { default_tax_rate := 0, payment_terms_days := 0,
    use_global_payment_terms := true }

/-- Settings with a default tax rate of 20 percent. -/
def settingsWithDefault20 : Settings :=
  { default_tax_rate := 20, payment_terms_days := 0,
    use_global_payment_terms := false }

/-- A customer with a 5 percent override rate and the default-tax flag off. -/
def overrideCustomer : Customer :=
  { name := "Acme Ltd", tax_rate := some 5, use_default_tax := false }

/-- A customer whose default-tax flag is on despite a stored override. -/
def defaultTaxCustomer : Customer :=
  { name := "Acme Ltd", tax_rate := some 5, use_default_tax := true }

/-! ## Helper lemmas -/

/-- Recalculation only rewrites derived fields: the item list projection. -/
theorem recalc_totals_items (today : ℤ) (inv : Invoice) :
    (recalc_totals today inv).items = inv.items := rfl

/-- Recalculation only rewrites derived fields: the payment list projection. -/
theorem recalc_totals_payments (today : ℤ) (inv : Invoice) :
    (recalc_totals today inv).payments = inv.payments := rfl

/-- The balance recomputed by `recalc_totals`, spelled out. -/
theorem recalc_totals_balance_due (today : ℤ) (inv : Invoice) :
    (recalc_totals today inv).balance_due =
      (recalc_totals today inv).total_amount -
        (inv.payments.map Payment.amount).sum := rfl

/-- The status recomputed by `recalc_totals`, spelled out via `next_status`. -/
theorem recalc_totals_status (today : ℤ) (inv : Invoice) :
    (recalc_totals today inv).status =
      next_status (recalc_totals today inv).balance_due
        (recalc_totals today inv).total_amount inv.due_date today
        inv.status := rfl

/-! ## Claims -/

/-- C10: `recalc_totals` writes only the derived monetary fields and the
status; the items (hence every stored line total), payments, customer,
invoice number, dates, tax rate and notes are left unchanged. -/
theorem C10_recalc_frame (today : ℤ) (inv : Invoice) :
    (recalc_totals today inv).items = inv.items ∧
    (recalc_totals today inv).payments = inv.payments ∧
    (recalc_totals today inv).customer_id = inv.customer_id ∧
    (recalc_totals today inv).invoice_number = inv.invoice_number ∧
    (recalc_totals today inv).issue_date = inv.issue_date ∧
    (recalc_totals today inv).due_date = inv.due_date ∧
    (recalc_totals today inv).tax_rate = inv.tax_rate ∧
    (recalc_totals today inv).notes = inv.notes :=
  ⟨rfl, rfl, rfl, rfl, rfl, rfl, rfl, rfl⟩

/-- C5: after recalculation the balance due is the total minus the exact
sum of the payment amounts; it is not clamped at zero and overpayment is
not an error: on a concrete invoice for 100.00 carrying a 150.00 payment
the recomputed balance is the negative value -50.00. -/
theorem C5_balance_due :
    (∀ (today : ℤ) (inv : Invoice),
      (recalc_totals today inv).balance_due =
        (recalc_totals today inv).total_amount -
          (inv.payments.map Payment.amount).sum) ∧
    (recalc_totals 0 overpaidInv).balance_due = -50 := by
  constructor
  · intro today inv
    rfl
  · norm_num [recalc_totals, overpaidInv, baseInv, mkInvoiceItem, quantize2,
      roundHalfEvenInt]

/-- C4 (amended): after recalculation the tax amount is
`subtotal * effectiveRate / 100` rounded to 2 fraction digits with ties to
even (Python `Decimal.quantize` default `ROUND_HALF_EVEN`), not round-half-up;
`effectiveRate` is the invoice's tax rate if set, else 0. -/
theorem C4_tax_amount_amended (today : ℤ) (inv : Invoice) :
    (recalc_totals today inv).tax_amount =
      quantize2 ((recalc_totals today inv).subtotal_amount *
        inv.tax_rate.getD 0 / 100) := rfl

/-- C4 counterexample: on an invoice with subtotal 1.25 and tax rate 10
the code stores 0.12 (ties to even), while round-half-up of 0.125 is
0.13, so the claimed round-half-up equation fails. -/
theorem C4_tax_amount_counterexample :
    (recalc_totals 0 tieInv).tax_amount = 12 / 100 ∧
    round2Spec ((recalc_totals 0 tieInv).subtotal_amount * 10 / 100) = 13 / 100 ∧
    (recalc_totals 0 tieInv).tax_amount ≠
      round2Spec ((recalc_totals 0 tieInv).subtotal_amount * 10 / 100) := by
  refine ⟨?_, ?_, ?_⟩ <;>
    norm_num [recalc_totals, tieInv, baseInv, mkInvoiceItem, quantize2,
      roundHalfEvenInt, round2Spec]

/-- C6: whenever the recomputed total is positive and the recomputed
balance due is at most zero, recalculation sets the status to `paid`. -/
theorem C6_paid_detection (today : ℤ) (inv : Invoice)
    (htotal : 0 < (recalc_totals today inv).total_amount)
    (hbal : (recalc_totals today inv).balance_due ≤ 0) :
    (recalc_totals today inv).status = Status.paid := by
  have h : (recalc_totals today inv).status =
      next_status (recalc_totals today inv).balance_due
        (recalc_totals today inv).total_amount inv.due_date today
        inv.status := rfl
  rw [h]
  unfold next_status
  simp [hbal, htotal]

/-- C6 witness: a concrete invoice for 100.00 with a 100.00 payment has
positive total, zero balance, and status `paid` after recalculation. -/
theorem C6_paid_detection_witness :
    0 < (recalc_totals 0 fullyPaidInv).total_amount ∧
    (recalc_totals 0 fullyPaidInv).balance_due ≤ 0 ∧
    (recalc_totals 0 fullyPaidInv).status = Status.paid := by
  have ht : 0 < (recalc_totals 0 fullyPaidInv).total_amount := by
    norm_num [recalc_totals, fullyPaidInv, baseInv, mkInvoiceItem, quantize2,
      roundHalfEvenInt]
  have hb : (recalc_totals 0 fullyPaidInv).balance_due ≤ 0 := by
    norm_num [recalc_totals, fullyPaidInv, baseInv, mkInvoiceItem, quantize2,
      roundHalfEvenInt]
  exact ⟨ht, hb, C6_paid_detection 0 fullyPaidInv ht hb⟩

/-- C7: tax resolution returns the settings default when the customer is
absent, when the customer uses the default tax, or when no override is
stored (the stored override being ignored whenever the flag is on), and
returns the customer's override otherwise. -/
theorem C7_tax_resolution :
    (∀ s : Settings,
      determine_tax_rate_for_customer none s = s.default_tax_rate) ∧
    (∀ (c : Customer) (s : Settings), c.use_default_tax = true →
      determine_tax_rate_for_customer (some c) s = s.default_tax_rate) ∧
    (∀ (c : Customer) (s : Settings), c.tax_rate = none →
      determine_tax_rate_for_customer (some c) s = s.default_tax_rate) ∧
    (∀ (c : Customer) (s : Settings) (r : ℚ), c.use_default_tax = false →
      c.tax_rate = some r →
      determine_tax_rate_for_customer (some c) s = r) := by
  refine ⟨fun s => rfl, fun c s h => ?_, fun c s h => ?_, fun c s r hf hr => ?_⟩
  · simp [determine_tax_rate_for_customer, h]
  · cases hu : c.use_default_tax <;>
      simp [determine_tax_rate_for_customer, h, hu]
  · simp [determine_tax_rate_for_customer, hf, hr]

/-- C7 witness: a customer with a 5 percent override and the flag off
resolves to 5 against a 20 percent default; the same customer with the
flag on resolves to the 20 percent default. -/
theorem C7_tax_resolution_witness :
    determine_tax_rate_for_customer (some overrideCustomer)
      settingsWithDefault20 = 5 ∧
    determine_tax_rate_for_customer (some defaultTaxCustomer)
      settingsWithDefault20 = 20 := by
  constructor
  · exact C7_tax_resolution.2.2.2 overrideCustomer settingsWithDefault20 5
      rfl rfl
  · exact C7_tax_resolution.2.1 defaultTaxCustomer settingsWithDefault20 rfl

/-- C8 (amended): an explicit due date is returned unchanged; otherwise,
when `use_global_payment_terms` is on and `payment_terms_days` is any
nonzero integer (negative included, Python truthiness of an `int`), the
result is `issue_date + payment_terms_days`; the result is null exactly
when the flag is off or the day count is zero.  The helper
`apply_global_payment_terms` agrees with the form handler's inline logic. -/
theorem C8_due_date_amended :
    (∀ (issue d : ℤ) (s : Settings),
      resolveDueDate issue (some d) s = some d) ∧
    (∀ (issue : ℤ) (s : Settings), s.use_global_payment_terms = true →
      s.payment_terms_days ≠ 0 →
      resolveDueDate issue none s = some (issue + s.payment_terms_days)) ∧
    (∀ (issue : ℤ) (s : Settings),
      s.use_global_payment_terms = false ∨ s.payment_terms_days = 0 →
      resolveDueDate issue none s = none) ∧
    (∀ (issue : ℤ) (s : Settings),
      apply_global_payment_terms issue s = resolveDueDate issue none s) := by
  refine ⟨fun issue d s => rfl, fun issue s hflag hdays => ?_,
    fun issue s h => ?_, fun issue s => ?_⟩
  · simp [resolveDueDate, hflag, hdays]
  · rcases h with h | h
    · simp [resolveDueDate, h]
    · simp [resolveDueDate, h]
  · rcases hflag : s.use_global_payment_terms with _ | _ <;>
      by_cases hdays : s.payment_terms_days = 0 <;>
      simp [resolveDueDate, apply_global_payment_terms, hflag, hdays]

/-- C8 witness: an explicit due date 42 is kept; 30-day terms move issue
date 100 to 130; enabled terms with a zero day count yield no due date. -/
theorem C8_due_date_amended_witness :
    resolveDueDate 100 (some 42) thirtyDaySettings = some 42 ∧
    resolveDueDate 100 none thirtyDaySettings = some 130 ∧
    resolveDueDate 100 none zeroDaySettings = none := by
  refine ⟨C8_due_date_amended.1 100 42 thirtyDaySettings, ?_, ?_⟩
  · have h := C8_due_date_amended.2.1 100 thirtyDaySettings rfl (by norm_num
      [thirtyDaySettings])
    simpa [thirtyDaySettings] using h
  · exact C8_due_date_amended.2.2.1 100 zeroDaySettings (Or.inr rfl)

/-- C8 counterexample: with global terms enabled and a stored day count of
-5 (not greater than 0, where the claim requires a null result), the code
returns `issue_date - 5`: a due date five days before the issue date. -/
theorem C8_due_date_counterexample :
    negativeTermsSettings.use_global_payment_terms = true ∧
    negativeTermsSettings.payment_terms_days = -5 ∧
    resolveDueDate 100 none negativeTermsSettings = some 95 ∧
    apply_global_payment_terms 100 negativeTermsSettings = some 95 := by
  refine ⟨rfl, rfl, ?_, ?_⟩ <;>
    norm_num [resolveDueDate, apply_global_payment_terms,
      negativeTermsSettings]

/-- C1 (amended): recalculation leaves a `cancelled` status unchanged
except through the paid branch: when the recomputed balance due is at most
zero and the recomputed total is positive, a cancelled invoice is set to
`paid`; in every other case it stays `cancelled`. -/
theorem C1_cancelled_amended (today : ℤ) (inv : Invoice)
    (h : inv.status = Status.cancelled) :
    (recalc_totals today inv).status =
      if (recalc_totals today inv).balance_due ≤ 0 ∧
          0 < (recalc_totals today inv).total_amount then Status.paid
      else Status.cancelled := by
  rw [recalc_totals_status]
  unfold next_status
  rw [h]
  simp

/-- C1 witness: a cancelled invoice for 100.00 with no payments keeps its
`cancelled` status through recalculation. -/
theorem C1_cancelled_amended_witness :
    cancelledUnpaidInv.status = Status.cancelled ∧
    (recalc_totals 0 cancelledUnpaidInv).status = Status.cancelled := by
  refine ⟨rfl, ?_⟩
  have h := C1_cancelled_amended 0 cancelledUnpaidInv rfl
  rw [h]
  norm_num [recalc_totals, cancelledUnpaidInv, baseInv, mkInvoiceItem,
    quantize2, roundHalfEvenInt]

/-- C1 counterexample: a cancelled invoice for 100.00 carrying a 100.00
payment does not stay `cancelled` under recalculation: the paid branch
(app.py line 237) does not test for `cancelled` and sets `paid`. -/
theorem C1_cancelled_counterexample :
    cancelledOverpaidInv.status = Status.cancelled ∧
    (recalc_totals 0 cancelledOverpaidInv).status = Status.paid := by
  constructor
  · rfl
  · norm_num [recalc_totals, next_status, duePast, cancelledOverpaidInv,
      baseInv, mkInvoiceItem, quantize2, roundHalfEvenInt]

/-- C2 (amended): recalculation never preserves `draft`: a draft invoice
is promoted to `paid` when the paid branch fires, to `overdue` when the
due date is past, and otherwise silently to `sent` (app.py line 246). -/
theorem C2_draft_amended (today : ℤ) (inv : Invoice)
    (h : inv.status = Status.draft) :
    (recalc_totals today inv).status =
      if (recalc_totals today inv).balance_due ≤ 0 ∧
          0 < (recalc_totals today inv).total_amount then Status.paid
      else if duePast today inv.due_date then Status.overdue
      else Status.sent := by
  rw [recalc_totals_status]
  unfold next_status
  rw [h]
  simp

/-- C2 witness: a draft invoice with no items, payments, or due date is
promoted to `sent` by recalculation, as the amended claim states. -/
theorem C2_draft_amended_witness :
    (recalc_totals 0 draftEmptyInv).status = Status.sent := by
  have h := C2_draft_amended 0 draftEmptyInv rfl
  rw [h]
  norm_num [recalc_totals, duePast, draftEmptyInv, baseInv, quantize2,
    roundHalfEvenInt]

/-- C2 counterexample: a draft invoice with no items, no payments and no
due date has status `sent` after recalculation, so recomputation does
silently promote `draft` to `sent`, contradicting the claim. -/
theorem C2_draft_counterexample :
    draftEmptyInv.status = Status.draft ∧
    (recalc_totals 0 draftEmptyInv).status = Status.sent := by
  constructor
  · rfl
  · norm_num [recalc_totals, next_status, duePast, draftEmptyInv, baseInv,
      quantize2, roundHalfEvenInt]
    decide

/-- C3 (amended): line totals are stored as the raw product
`quantity * unit_price` with no rounding (first conjunct: the handler's
item constructor), and recalculation leaves every stored line total
untouched, so after `recalc_totals` each item still satisfies
`line_total = quantity * unit_price` exactly — not the round-half-up
2-decimal value the claim states (they coincide only when the product
already has at most two fraction digits, as in 3 * 19.99 = 59.97). -/
theorem C3_line_total_amended :
    (∀ (desc : String) (qty price : ℚ) (pid : Option ℕ),
      (mkInvoiceItem desc qty price pid).line_total = qty * price) ∧
    (∀ (today : ℤ) (inv : Invoice),
      (∀ it ∈ inv.items, it.line_total = it.quantity * it.unit_price) →
      ∀ it ∈ (recalc_totals today inv).items,
        it.line_total = it.quantity * it.unit_price) := by
  refine ⟨fun desc qty price pid => rfl, fun today inv h it hmem => ?_⟩
  rw [recalc_totals_items] at hmem
  exact h it hmem

/-- C3 witness: on the invoice with the single item 3 x 19.99 the item
still satisfies the exact-product equation after recalculation, and the
stored value is 59.97. -/
theorem C3_line_total_amended_witness :
    (mkInvoiceItem "consulting" 3 (1999 / 100) none).line_total =
      (mkInvoiceItem "consulting" 3 (1999 / 100) none).quantity *
        (mkInvoiceItem "consulting" 3 (1999 / 100) none).unit_price ∧
    (mkInvoiceItem "consulting" 3 (1999 / 100) none).line_total =
      5997 / 100 := by
  constructor
  · refine C3_line_total_amended.2 0 threeItemInv ?_ _ ?_
    · intro it hit
      simp only [threeItemInv, baseInv, List.mem_singleton] at hit
      subst hit
      rfl
    · rw [recalc_totals_items]
      simp [threeItemInv, baseInv]
  · norm_num [mkInvoiceItem]

/-- C3 counterexample: the invoice whose single item has quantity 0.5 and
unit price 0.05 stores the raw line total 0.025 after recalculation, and
0.025 is not the 2-decimal rounding 0.03 of the product, so the claimed
per-item rounding equation fails. -/
theorem C3_line_total_counterexample :
    ¬ ∀ it ∈ (recalc_totals 0 halfCentInv).items,
        it.line_total = round2Spec (it.quantity * it.unit_price) := by
  intro h
  have hmem : mkInvoiceItem "fractional" (1 / 2) (1 / 20) none ∈
      (recalc_totals 0 halfCentInv).items := by
    rw [recalc_totals_items]
    simp [halfCentInv, baseInv]
  have h2 := h _ hmem
  norm_num [mkInvoiceItem, round2Spec] at h2

/-- Idempotence of the status-transition chain: feeding its own output
back in with the same balance, total, due date and date is a fixed point. -/
theorem next_status_idem (b t : ℚ) (due : Option ℤ) (today : ℤ)
    (st : Status) :
    next_status b t due today (next_status b t due today st) =
      next_status b t due today st := by
  cases st <;> unfold next_status <;> split_ifs <;> simp_all

/-- C9: recalculation is idempotent: with no intervening mutation and the
same current date, a second `recalc_totals` returns the invoice unchanged,
so the subtotal, tax amount, total, balance due and status all agree with
the first run's. -/
theorem C9_recalc_idempotent (today : ℤ) (inv : Invoice) :
    recalc_totals today (recalc_totals today inv) = recalc_totals today inv := by
  unfold recalc_totals
  simp only []
  congr 1
  exact next_status_idem _ _ _ _ _

end InvoiceManager
